import Mathlib

/-!
Verification development for the CVRP repository (src/Address.py and
src/DistanceMatrix.py), a thin client over a geocoding API and the Bing
Maps distance-matrix API.

Shallow embedding conventions:
* Python floats carrying coordinates / distances are modelled as `Rat`;
  the `float("NaN")` sentinel of an unresolved coordinate is modelled as
  `none` of `Option Rat`.
* JSON response bodies are modelled by structures carrying exactly the
  fields the code reads (`statusCode`, `statusDescription`, the flat
  `results` list; for the geocoder, the coordinate pair found at
  `features[0].geometry.coordinates`).
* The network is modelled as an explicit oracle argument: the body that
  `requests.get(...).json()` would return is passed in, and the returned
  record carries a Boolean recording whether that external call actually
  happened.
* Mutable class/instance state is threaded explicitly (`DMState` for the
  class-level attributes of `DistanceMatrix`, the `Address` record itself
  for instance attributes).
* A raised Python exception is an `Except.error` / a `some message` slot;
  the post-raise state is still returned, because Python's class-level and
  instance-level mutations survive the exception.
-/

namespace CVRP

/-- One element of the flat `results` list of a Bing distance-matrix
response; the code reads exactly the two fields `travelDistance` and
`travelDuration` from it. -/
structure Entry where
  travelDistance : Rat
  travelDuration : Rat
deriving DecidableEq

/-- The parts of the distance-matrix JSON response body that the code
reads: `response['statusCode']`, `response['statusDescription']` and the
flat list `response["resourceSets"][0]['resources'][0]['results']`. -/
structure Response where
  statusCode : Nat
  statusDescription : String
  results : List Entry
deriving DecidableEq

/-- The class-level mutable attributes of `DistanceMatrix`:
`__response` (initially the empty dict `{}`, modelled as `none`),
`__last_requested`, `__number_of_requests_saved` and
`__number_of_requests_made`. -/
structure DMState where
  response : Option Response
  last_requested : List String
  number_of_requests_saved : Nat
  number_of_requests_made : Nat
deriving DecidableEq

/-- The initial class-level state of `DistanceMatrix`. -/
def DMState.init : DMState := ⟨none, [], 0, 0⟩

namespace DistanceMatrix

/-- `DistanceMatrix.__identical_list`: both set differences
`set(list1) - set(list2)` and `set(list2) - set(list1)` are empty,
i.e. the two lists are equal as sets. -/
def identical_list (list1 list2 : List String) : Bool :=
  list1.all (fun x => list2.contains x) && list2.all (fun x => list1.contains x)

/-- Result of `DistanceMatrix.__request_matrix`: the response it returns,
whether an external HTTP request was actually issued by `requests.get`,
and the updated class-level state. -/
structure ReqResult where
  resp : Response
  issued : Bool
  state : DMState
deriving DecidableEq

/-- `DistanceMatrix.__request_matrix`. Increments `__number_of_requests_made`,
then either issues a new external request (storing `net`, the body the
network would return, and remembering `geocodes` as `__last_requested`) or
reuses the cached `__response` and increments `__number_of_requests_saved`.
In the reuse branch `condition1` is false, so the cached response exists and
the `getD` default is never reached. -/
def request_matrix (geocodes : List String) (net : Response) (s : DMState) :
    ReqResult :=
  let s1 : DMState := { s with
    number_of_requests_made := s.number_of_requests_made + 1 }
  let condition1 : Bool :=
    match s1.response with
    | none => true
    | some r => decide (r.statusCode ≠ 200)
  let condition2 : Bool := ! identical_list s1.last_requested geocodes
  if condition1 || condition2 then
    ⟨net, true, { s1 with last_requested := geocodes, response := some net }⟩
  else
    ⟨s1.response.getD net, false,
      { s1 with number_of_requests_saved := s1.number_of_requests_saved + 1 }⟩

/-- The loop body of `DistanceMatrix.__build_matrix`: iterate the flat
results with an enumeration counter, append each entry to the current row,
and flush the row into the matrix whenever `(counter + 1) % len(geocodes)`
equals zero.  When `len(geocodes)` is zero and an iteration is reached,
Python raises `ZeroDivisionError` on the modulo, modelled as an error.
A final partial row is discarded, as in the source. -/
def buildLoop (n : Nat) :
    List Entry → Nat → List Entry → List (List Entry) →
      Except String (List (List Entry))
  | [], _, _, matrix => .ok matrix
  | item :: rest, counter, row, matrix =>
    if n = 0 then
      .error "ZeroDivisionError: integer division or modulo by zero"
    else
      let row' := row ++ [item]
      if (counter + 1) % n = 0 then
        buildLoop n rest (counter + 1) [] (matrix ++ [row'])
      else
        buildLoop n rest (counter + 1) row' matrix

/-- `DistanceMatrix.__build_matrix`: on a 200 response, reshape the flat
results into rows of length `len(geocodes)`; otherwise return an empty
matrix together with the printed diagnostic line (modelled as the second
component). -/
def build_matrix (geocodes : List String) (response : Response) :
    Except String (List (List Entry) × Option String) :=
  if response.statusCode = 200 then
    match buildLoop geocodes.length response.results 0 [] [] with
    | .error e => .error e
    | .ok m => .ok (m, none)
  else
    .ok ([], some ("Execution stopped with HTTP code "
      ++ toString response.statusCode ++ " " ++ response.statusDescription))

/-- Projection `x[key]` on an entry dict holding exactly the two keys
`travelDistance` and `travelDuration`; `get_matrix` only evaluates it for
one of those two keys. -/
def projKey (key : String) (e : Entry) : Rat :=
  if key = "travelDistance" then e.travelDistance else e.travelDuration

/-- Result of `DistanceMatrix.get_matrix`: the returned matrix (or the
exception escaping it), the diagnostic printed by `__build_matrix` if any,
whether an external HTTP request was issued, and the updated state. -/
structure MatrixResult where
  matrix : Except String (List (List Rat))
  diagnostic : Option String
  issued : Bool
  state : DMState

/-- `DistanceMatrix.get_matrix`.  Rejects unrecognized `key` values before
touching any state, otherwise requests (or reuses) the response, reshapes
it, and projects `key` out of every cell. -/
def get_matrix (geocodes : List String) (key : String) (net : Response)
    (s : DMState) : MatrixResult :=
  if key = "travelDistance" ∨ key = "travelDuration" then
    let req := request_matrix geocodes net s
    match build_matrix geocodes req.resp with
    | .error e => ⟨.error e, none, req.issued, req.state⟩
    | .ok (grid, diag) =>
        ⟨.ok (grid.map (fun row => row.map (projKey key))), diag,
          req.issued, req.state⟩
  else
    ⟨.ok [], none, false, s⟩

end DistanceMatrix

/-- The parts of the geocoder JSON body the code reads: the coordinate
pair `features[0].geometry.coordinates`, in GeoJSON `(longitude, latitude)`
order.  Any body from which the code extracts a coordinate pair is a
nonempty dict, so `Option GeoResponse` with `none` for the initial empty
`__info` dict models the truthiness test `if not self.__info`. -/
structure GeoResponse where
  coordinates : Rat × Rat
deriving DecidableEq

/-- An `Address` record: the five text fields plus the resolved state
(`__latitude`, `__longitude` with the NaN sentinel modelled as `none`,
and the `__info` metadata dict, `none` while empty). -/
structure Address where
  street : String
  city : String
  state : String
  country : String
  zipcode : String
  latitude : Option Rat
  longitude : Option Rat
  info : Option GeoResponse
deriving DecidableEq

namespace Address

/-- `Address.__init__`: stores the five fields, sets the coordinate NaN
sentinels and the empty metadata dict. -/
def make (street city state country zipcode : String) : Address :=
  ⟨street, city, state, country, zipcode, none, none, none⟩

/-- Result of `Address.geocode`: the raised exception message if any,
whether the external geocoding call was performed, and the state of the
record afterwards (mutations survive a raise). -/
structure GeocodeResult where
  error : Option String
  called : Bool
  state : Address
deriving DecidableEq

/-- `Address.geocode`.  No-op when `__info` is already nonempty; otherwise
performs the external call (whose body is the oracle `net`), stores the
body in `__info`, extracts `(longitude, latitude)`, validates the bounds
(raising before any coordinate is stored), and finally stores latitude
then longitude. -/
def geocode (net : GeoResponse) (a : Address) : GeocodeResult :=
  match a.info with
  | some _ => ⟨none, false, a⟩
  | none =>
    let a1 : Address := { a with info := some net }
    let longitude := net.coordinates.1
    let latitude := net.coordinates.2
    if latitude < -90 ∨ latitude > 90 then
      ⟨some "Illegal argument, latitude must be between -90 and 90", true, a1⟩
    else if longitude < -180 ∨ longitude > 180 then
      ⟨some "Illegal argument, longitude must be between -180 and 180", true, a1⟩
    else
      ⟨none, true, { a1 with latitude := some latitude,
                             longitude := some longitude }⟩

/-- The attribute names that `Address.__init__` (and `geocode`) store on an
instance, after Python's name mangling of the double-underscore names used
in the class body (`self.__street` is stored as `_Address__street`, etc.).
No other attribute is ever assigned on an instance. -/
def storedAttrNames : List String :=
  ["_Address__street", "_Address__city", "_Address__state",
   "_Address__country", "_Address__zipcode", "_Address__latitude",
   "_Address__longitude", "_Address__info"]

/-- The attribute name the `info` property getter reads: the source returns
`self._info`, a single-underscore name, which Python does not mangle. -/
def infoPropertyReads : String := "_info"

/-- Python attribute lookup for the `info` getter: it succeeds only if the
name it reads is among the attributes stored on the instance; otherwise
the attribute access raises `AttributeError`. -/
def infoPropertyFinds : Bool := storedAttrNames.contains infoPropertyReads

/-- The latitude/longitude bounds invariant on a record: any stored
(non-sentinel) coordinate is inside the valid geographic ranges. -/
def boundsInv (a : Address) : Prop :=
  (∀ lat ∈ a.latitude, -90 ≤ lat ∧ lat ≤ 90) ∧
  (∀ lon ∈ a.longitude, -180 ≤ lon ∧ lon ≤ 180)

end Address

/-! ### Helper lemmas about the distance-matrix cache -/

namespace DistanceMatrix

theorem request_matrix_made (geocodes : List String) (net : Response)
    (s : DMState) :
    (request_matrix geocodes net s).state.number_of_requests_made
      = s.number_of_requests_made + 1 := by
  unfold request_matrix
  dsimp only
  split <;> rfl

theorem get_matrix_issued (geocodes : List String) (key : String)
    (net : Response) (s : DMState)
    (hk : key = "travelDistance" ∨ key = "travelDuration") :
    (get_matrix geocodes key net s).issued
      = (request_matrix geocodes net s).issued := by
  unfold get_matrix
  rw [if_pos hk]
  dsimp only
  split <;> rfl

theorem get_matrix_state (geocodes : List String) (key : String)
    (net : Response) (s : DMState)
    (hk : key = "travelDistance" ∨ key = "travelDuration") :
    (get_matrix geocodes key net s).state
      = (request_matrix geocodes net s).state := by
  unfold get_matrix
  rw [if_pos hk]
  dsimp only
  split <;> rfl

theorem request_matrix_issued_iff (geocodes : List String) (net : Response)
    (s : DMState) :
    (request_matrix geocodes net s).issued = true ↔
      (s.response = none ∨
       (∃ r, s.response = some r ∧ r.statusCode ≠ 200) ∨
       identical_list s.last_requested geocodes = false) := by
  unfold request_matrix
  cases h : s.response with
  | none => simp
  | some r =>
      by_cases h2 : r.statusCode = 200 <;>
        by_cases h3 : identical_list s.last_requested geocodes <;>
          simp [h2, h3]

theorem request_matrix_reuse (geocodes : List String) (net : Response)
    (s : DMState) (h : (request_matrix geocodes net s).issued = false) :
    (request_matrix geocodes net s).state.response = s.response ∧
    (request_matrix geocodes net s).state.last_requested = s.last_requested ∧
    (request_matrix geocodes net s).state.number_of_requests_saved
      = s.number_of_requests_saved + 1 ∧
    (∀ r, s.response = some r → (request_matrix geocodes net s).resp = r) := by
  unfold request_matrix at *
  cases hresp : s.response with
  | none => rw [hresp] at h; simp at h
  | some r =>
      rw [hresp] at h
      by_cases h2 : r.statusCode = 200 <;>
        by_cases h3 : identical_list s.last_requested geocodes <;>
          simp [h2, h3] at h ⊢

/-- The first `k` rows of length `n` cut from the front of `l`; the shape
`buildLoop` produces on a flat list of `k * n` results. -/
def chunkN (n : Nat) : Nat → List Entry → List (List Entry)
  | 0, _ => []
  | k + 1, l => l.take n :: chunkN n k (l.drop n)

theorem chunkN_length (n : Nat) :
    ∀ (k : Nat) (l : List Entry), (chunkN n k l).length = k
  | 0, _ => rfl
  | k + 1, l => by simp [chunkN, chunkN_length n k]

theorem chunkN_getElem? (n : Nat) :
    ∀ (k i : Nat) (l : List Entry), i < k →
      (chunkN n k l)[i]? = some ((l.drop (i * n)).take n)
  | 0, i, l, h => absurd h (Nat.not_lt_zero i)
  | k + 1, 0, l, _ => by simp [chunkN]
  | k + 1, i + 1, l, h => by
      have ih := chunkN_getElem? n k i (l.drop n) (Nat.lt_of_succ_lt_succ h)
      have harith : n + i * n = (i + 1) * n := by ring
      simp only [chunkN, List.getElem?_cons_succ, ih, List.drop_drop, harith]

/-- Processing the remainder `l` of the current row: `buildLoop` appends
each of its entries and flushes the completed row once, then continues on
`rest` with an empty row. -/
theorem buildLoop_fill (n : Nat) (hn : 0 < n) (l : List Entry) :
    ∀ (rest row : List Entry) (q : Nat) (matrix : List (List Entry)),
      0 < l.length → row.length + l.length = n →
      buildLoop n (l ++ rest) (n * q + row.length) row matrix =
        buildLoop n rest (n * q + row.length + l.length) []
          (matrix ++ [row ++ l]) := by
  induction l with
  | nil =>
      intro rest row q matrix hl _
      simp at hl
  | cons a l' ih =>
      intro rest row q matrix _ hsum
      have hne : ¬ n = 0 := Nat.pos_iff_ne_zero.mp hn
      rw [List.cons_append, buildLoop, if_neg hne]
      dsimp only
      rcases l' with _ | ⟨b, l''⟩
      · have hrow : row.length + 1 = n := by simpa using hsum
        have hmod : (n * q + row.length + 1) % n = 0 := by
          rw [Nat.add_assoc, Nat.mul_add_mod, hrow, Nat.mod_self]
        rw [if_pos hmod]
        simp
      · have hlt : row.length + 1 < n := by
          have : row.length + (l''.length + 2) = n := by simpa using hsum
          omega
        have hmod : (n * q + row.length + 1) % n = row.length + 1 := by
          rw [Nat.add_assoc, Nat.mul_add_mod, Nat.mod_eq_of_lt hlt]
        rw [if_neg (by rw [hmod]; omega)]
        have e1 : n * q + row.length + 1 = n * q + (row ++ [a]).length := by
          simp [Nat.add_assoc]
        have h1 : 0 < (b :: l'').length := Nat.succ_pos l''.length
        have h2 : (row ++ [a]).length + (b :: l'').length = n := by
          simp only [List.length_append, List.length_cons, List.length_nil]
          simp only [List.length_cons] at hsum
          omega
        rw [e1, ih rest (row ++ [a]) q matrix h1 h2]
        have e2 : n * q + (row ++ [a]).length + (b :: l'').length
            = n * q + row.length + (a :: b :: l'').length := by
          simp only [List.length_append, List.length_cons, List.length_nil]
          omega
        rw [e2]
        simp

/-- From a fresh row and a row-aligned counter, `buildLoop` on `k * n`
results appends exactly the `k` chunks of length `n`. -/
theorem buildLoop_chunks (n : Nat) (hn : 0 < n) :
    ∀ (k : Nat) (results : List Entry) (q : Nat) (matrix : List (List Entry)),
      results.length = k * n →
      buildLoop n results (n * q) [] matrix = .ok (matrix ++ chunkN n k results) := by
  intro k
  induction k with
  | zero =>
      intro results q matrix hlen
      have : results = [] := List.length_eq_zero.mp (by simpa using hlen)
      subst this
      simp [buildLoop, chunkN]
  | succ k ih =>
      intro results q matrix hlen
      have hnk : (k + 1) * n = k * n + n := by ring
      have hge : n ≤ results.length := by rw [hlen]; omega
      have htake : (results.take n).length = n := by
        rw [List.length_take]; omega
      have hdrop : (results.drop n).length = k * n := by
        rw [List.length_drop, hlen]; omega
      have hfill := buildLoop_fill n hn (results.take n) (results.drop n) [] q matrix
        (by rw [htake]; exact hn) (by simpa using htake)
      rw [List.take_append_drop] at hfill
      have e0 : n * q + List.length ([] : List Entry) = n * q := by simp
      rw [e0] at hfill
      rw [hfill]
      have e1 : n * q + (results.take n).length = n * (q + 1) := by
        rw [htake]; ring
      rw [e1, ih (results.drop n) (q + 1) (matrix ++ [[] ++ results.take n]) hdrop]
      simp [chunkN]

theorem identical_list_of_perm (l1 l2 : List String) (h : l1.Perm l2) :
    identical_list l1 l2 = true := by
  simp only [identical_list, Bool.and_eq_true, List.all_eq_true]
  constructor <;> intro x hx
  · simpa [List.contains, List.elem_iff] using h.mem_iff.mp hx
  · simpa [List.contains, List.elem_iff] using h.mem_iff.mpr hx

end DistanceMatrix

/-! ### Claim theorems -/

open DistanceMatrix in
/-- C1: with a recognized metric, `get_matrix` issues a new external request
iff no cached response exists, or its status is not 200, or the requested
coordinates differ as a set from the last requested list; otherwise the
cached response is reused unchanged and the saved counter goes up by one.
Requesting a permutation of the last list counts as the same set. -/
theorem C1_cache_decision (geocodes : List String) (key : String)
    (net : Response) (s : DMState)
    (hk : key = "travelDistance" ∨ key = "travelDuration") :
    ((get_matrix geocodes key net s).issued = true ↔
      (s.response = none ∨
       (∃ r, s.response = some r ∧ r.statusCode ≠ 200) ∨
       identical_list s.last_requested geocodes = false)) ∧
    ((get_matrix geocodes key net s).issued = false →
      (get_matrix geocodes key net s).state.response = s.response ∧
      (get_matrix geocodes key net s).state.number_of_requests_saved
        = s.number_of_requests_saved + 1 ∧
      (∀ r, s.response = some r → (request_matrix geocodes net s).resp = r)) ∧
    (s.last_requested.Perm geocodes →
      identical_list s.last_requested geocodes = true) := by
  rw [get_matrix_issued geocodes key net s hk, get_matrix_state geocodes key net s hk]
  refine ⟨request_matrix_issued_iff geocodes net s, fun h => ?_, fun h =>
    identical_list_of_perm _ _ h⟩
  obtain ⟨h1, _, h3, h4⟩ := request_matrix_reuse geocodes net s h
  exact ⟨h1, h3, h4⟩

/-- Witness for C1 at a concrete reordered request: the cache built by
requesting `[A, B, C]` is reused for `[C, A, B]`. -/
theorem C1_cache_decision_witness :
    ((DistanceMatrix.get_matrix ["C", "A", "B"] "travelDistance"
        ⟨200, "OK", []⟩
        ⟨some ⟨200, "OK", []⟩, ["A", "B", "C"], 0, 1⟩).issued = true ↔
      ((some ⟨200, "OK", []⟩ : Option Response) = none ∨
       (∃ r, (some ⟨200, "OK", []⟩ : Option Response) = some r ∧
          r.statusCode ≠ 200) ∨
       DistanceMatrix.identical_list ["A", "B", "C"] ["C", "A", "B"] = false)) ∧
    ((DistanceMatrix.get_matrix ["C", "A", "B"] "travelDistance"
        ⟨200, "OK", []⟩
        ⟨some ⟨200, "OK", []⟩, ["A", "B", "C"], 0, 1⟩).issued = false →
      (DistanceMatrix.get_matrix ["C", "A", "B"] "travelDistance"
        ⟨200, "OK", []⟩
        ⟨some ⟨200, "OK", []⟩, ["A", "B", "C"], 0, 1⟩).state.response
          = some ⟨200, "OK", []⟩ ∧
      (DistanceMatrix.get_matrix ["C", "A", "B"] "travelDistance"
        ⟨200, "OK", []⟩
        ⟨some ⟨200, "OK", []⟩, ["A", "B", "C"], 0, 1⟩).state.number_of_requests_saved
          = 0 + 1 ∧
      (∀ r, (some ⟨200, "OK", []⟩ : Option Response) = some r →
        (DistanceMatrix.request_matrix ["C", "A", "B"] ⟨200, "OK", []⟩
          ⟨some ⟨200, "OK", []⟩, ["A", "B", "C"], 0, 1⟩).resp = r)) ∧
    (List.Perm ["A", "B", "C"] ["C", "A", "B"] →
      DistanceMatrix.identical_list ["A", "B", "C"] ["C", "A", "B"] = true) :=
  C1_cache_decision ["C", "A", "B"] "travelDistance" ⟨200, "OK", []⟩
    ⟨some ⟨200, "OK", []⟩, ["A", "B", "C"], 0, 1⟩ (Or.inl rfl)

open DistanceMatrix in
/-- C3 (amended): every invocation of `get_matrix` with a recognized metric
increments the requests-made counter by exactly one, whether the cache is
reused or a new request is issued.  (The original claim said "regardless of
the metric argument"; an unrecognized metric returns before the counter is
touched, see the counterexample.) -/
theorem C3_requests_made_increment (geocodes : List String) (key : String)
    (net : Response) (s : DMState)
    (hk : key = "travelDistance" ∨ key = "travelDuration") :
    (get_matrix geocodes key net s).state.number_of_requests_made
      = s.number_of_requests_made + 1 := by
  rw [get_matrix_state geocodes key net s hk]
  exact request_matrix_made geocodes net s

/-- Witness for C3 (amended) at a concrete call. -/
theorem C3_requests_made_increment_witness :
    (DistanceMatrix.get_matrix ["A"] "travelDuration" ⟨200, "OK", []⟩
        DMState.init).state.number_of_requests_made
      = DMState.init.number_of_requests_made + 1 :=
  C3_requests_made_increment ["A"] "travelDuration" ⟨200, "OK", []⟩
    DMState.init (Or.inr rfl)

/-- Counterexample to C3 as stated: with the unrecognized metric "speed"
the invocation leaves the requests-made counter at 0 instead of
incrementing it to 1. -/
theorem C3_cex_unrecognized_metric_no_increment :
    ¬ ((DistanceMatrix.get_matrix ["A"] "speed" ⟨200, "OK", []⟩
          DMState.init).state.number_of_requests_made
        = DMState.init.number_of_requests_made + 1) := by
  decide

open DistanceMatrix in
/-- C2: when the response reaching the reshape step has status 200 and its
flat results list has `n * n` entries for `n` input coordinates,
`get_matrix` returns an `n`-by-`n` matrix whose cell `[i][j]` is the
requested metric field of flat entry `i * n + j` (row-major grouping into
rows of length `n`). -/
theorem C2_matrix_reshape (geocodes : List String) (key : String)
    (net : Response) (s : DMState)
    (hk : key = "travelDistance" ∨ key = "travelDuration")
    (h200 : (request_matrix geocodes net s).resp.statusCode = 200)
    (hlen : (request_matrix geocodes net s).resp.results.length
      = geocodes.length * geocodes.length) :
    ∃ M, (get_matrix geocodes key net s).matrix = .ok M ∧
      M.length = geocodes.length ∧
      ∀ i j : Nat, i < geocodes.length → j < geocodes.length →
        ∃ row, M[i]? = some row ∧ row.length = geocodes.length ∧
          row[j]? =
            ((request_matrix geocodes net s).resp.results[i * geocodes.length + j]?).map
              (projKey key) := by
  unfold get_matrix
  rw [if_pos hk]
  dsimp only
  unfold build_matrix
  rw [if_pos h200]
  rcases Nat.eq_zero_or_pos geocodes.length with hn | hn
  · have hres : (request_matrix geocodes net s).resp.results = [] := by
      apply List.length_eq_zero.mp
      rw [hlen, hn]
    rw [hres]
    refine ⟨[], rfl, hn.symm, ?_⟩
    intro i j hi _
    rw [hn] at hi
    omega
  · have hB := buildLoop_chunks geocodes.length hn geocodes.length
      (request_matrix geocodes net s).resp.results 0 [] hlen
    rw [Nat.mul_zero, List.nil_append] at hB
    rw [hB]
    refine ⟨_, rfl, ?_, ?_⟩
    · rw [List.length_map, chunkN_length]
    · intro i j hi hj
      refine ⟨(((request_matrix geocodes net s).resp.results.drop
          (i * geocodes.length)).take geocodes.length).map (projKey key),
        ?_, ?_, ?_⟩
      · rw [List.getElem?_map, chunkN_getElem? _ _ _ _ hi]
        rfl
      · rw [List.length_map, List.length_take, List.length_drop, hlen]
        have hle : i * geocodes.length + geocodes.length
            ≤ geocodes.length * geocodes.length := by
          have h1 : (i + 1) * geocodes.length
              ≤ geocodes.length * geocodes.length :=
            Nat.mul_le_mul_right _ (by omega)
          calc i * geocodes.length + geocodes.length
              = (i + 1) * geocodes.length := by ring
            _ ≤ geocodes.length * geocodes.length := h1
        omega
      · rw [List.getElem?_map, List.getElem?_take_of_lt hj, List.getElem?_drop]

/-- Witness for C2 at two coordinates and four concrete flat entries. -/
theorem C2_matrix_reshape_witness :
    ∃ M, (DistanceMatrix.get_matrix ["A", "B"] "travelDistance"
        ⟨200, "OK", [⟨1, 10⟩, ⟨2, 20⟩, ⟨3, 30⟩, ⟨4, 40⟩]⟩ DMState.init).matrix
        = .ok M ∧
      M.length = (["A", "B"] : List String).length ∧
      ∀ i j : Nat, i < (["A", "B"] : List String).length →
        j < (["A", "B"] : List String).length →
        ∃ row, M[i]? = some row ∧
          row.length = (["A", "B"] : List String).length ∧
          row[j]? =
            ((DistanceMatrix.request_matrix ["A", "B"]
                ⟨200, "OK", [⟨1, 10⟩, ⟨2, 20⟩, ⟨3, 30⟩, ⟨4, 40⟩]⟩
                DMState.init).resp.results[i * (["A", "B"] : List String).length + j]?).map
              (DistanceMatrix.projKey "travelDistance") :=
  C2_matrix_reshape ["A", "B"] "travelDistance"
    ⟨200, "OK", [⟨1, 10⟩, ⟨2, 20⟩, ⟨3, 30⟩, ⟨4, 40⟩]⟩ DMState.init
    (Or.inl rfl) (by rfl) (by rfl)

open DistanceMatrix in
/-- C7: when the response reaching the reshape step has a non-200 status,
`get_matrix` returns an empty matrix without raising, and the diagnostic
line naming the status code and status description is produced. -/
theorem C7_degraded_response (geocodes : List String) (key : String)
    (net : Response) (s : DMState)
    (hk : key = "travelDistance" ∨ key = "travelDuration")
    (hcode : (request_matrix geocodes net s).resp.statusCode ≠ 200) :
    (get_matrix geocodes key net s).matrix = .ok [] ∧
    (get_matrix geocodes key net s).diagnostic =
      some ("Execution stopped with HTTP code "
        ++ toString (request_matrix geocodes net s).resp.statusCode
        ++ " " ++ (request_matrix geocodes net s).resp.statusDescription) := by
  unfold get_matrix
  rw [if_pos hk]
  dsimp only
  unfold build_matrix
  rw [if_neg hcode]
  exact ⟨rfl, rfl⟩

/-- Witness for C7 at a concrete 500 response. -/
theorem C7_degraded_response_witness :
    (DistanceMatrix.get_matrix ["A"] "travelDistance" ⟨500, "InternalServerError", []⟩
        DMState.init).matrix = .ok [] ∧
    (DistanceMatrix.get_matrix ["A"] "travelDistance" ⟨500, "InternalServerError", []⟩
        DMState.init).diagnostic =
      some ("Execution stopped with HTTP code "
        ++ toString (DistanceMatrix.request_matrix ["A"]
            ⟨500, "InternalServerError", []⟩ DMState.init).resp.statusCode
        ++ " " ++ (DistanceMatrix.request_matrix ["A"]
            ⟨500, "InternalServerError", []⟩ DMState.init).resp.statusDescription) :=
  C7_degraded_response ["A"] "travelDistance" ⟨500, "InternalServerError", []⟩
    DMState.init (Or.inl rfl) (by decide)

open DistanceMatrix in
/-- C8: an unrecognized metric makes `get_matrix` return an empty list
immediately: no exception, no external request, and the class state
(including both counters) is completely untouched. -/
theorem C8_unrecognized_metric (geocodes : List String) (key : String)
    (net : Response) (s : DMState)
    (hk : key ≠ "travelDistance" ∧ key ≠ "travelDuration") :
    get_matrix geocodes key net s = ⟨.ok [], none, false, s⟩ := by
  unfold get_matrix
  rw [if_neg]
  rintro (h | h)
  · exact hk.1 h
  · exact hk.2 h

/-- Witness for C8 at the concrete unrecognized metric "speed". -/
theorem C8_unrecognized_metric_witness :
    DistanceMatrix.get_matrix ["A"] "speed" ⟨200, "OK", []⟩ DMState.init =
      ⟨.ok [], none, false, DMState.init⟩ :=
  C8_unrecognized_metric ["A"] "speed" ⟨200, "OK", []⟩ DMState.init
    (by constructor <;> decide)

open DistanceMatrix in
/-- C9: on the empty coordinate list with a recognized metric, if the
response reaching the reshape step has status 200 and a nonempty flat
results list, the reshape evaluates `(counter + 1) % len(geocodes)` with
`len(geocodes) = 0` and a `ZeroDivisionError` escapes instead of a
matrix being returned. -/
theorem C9_empty_geocodes_zero_division (key : String) (net : Response)
    (s : DMState)
    (hk : key = "travelDistance" ∨ key = "travelDuration")
    (hcode : (request_matrix [] net s).resp.statusCode = 200)
    (hres : (request_matrix [] net s).resp.results ≠ []) :
    (get_matrix [] key net s).matrix =
      .error "ZeroDivisionError: integer division or modulo by zero" := by
  unfold get_matrix
  rw [if_pos hk]
  dsimp only
  unfold build_matrix
  rw [if_pos hcode]
  rcases hr : (request_matrix [] net s).resp.results with _ | ⟨e, rest⟩
  · exact absurd hr hres
  · simp [buildLoop]

/-- Witness for C9: a concrete 200 response with one flat entry on the
empty coordinate list. -/
theorem C9_empty_geocodes_zero_division_witness :
    (DistanceMatrix.get_matrix [] "travelDistance" ⟨200, "OK", [⟨1, 2⟩]⟩
        DMState.init).matrix =
      .error "ZeroDivisionError: integer division or modulo by zero" :=
  C9_empty_geocodes_zero_division "travelDistance" ⟨200, "OK", [⟨1, 2⟩]⟩
    DMState.init (Or.inl rfl) (by decide) (by decide)

/-- C4 (code bug): the `info` property getter reads the attribute name
`_info`, which is not among the attributes that `__init__`/`geocode` store
on the instance (the class body's `self.__info` is name-mangled to
`_Address__info`), so the Python attribute lookup fails and the getter
raises `AttributeError` instead of returning the stored metadata
mapping. -/
theorem C4_info_getter_reads_missing_attribute :
    Address.infoPropertyFinds = false := by
  decide

open Address in
/-- C5: `geocode` is idempotent: over two consecutive calls the external
geocoding request is performed at most once, and the second call is a
no-op returning no error and leaving the record (latitude, longitude and
metadata included) exactly as the first call left it. -/
theorem C5_geocode_idempotent (a : Address) (net1 net2 : GeoResponse) :
    ((geocode net1 a).called.toNat
        + (geocode net2 (geocode net1 a).state).called.toNat ≤ 1) ∧
    geocode net2 (geocode net1 a).state =
      ⟨none, false, (geocode net1 a).state⟩ := by
  cases h : a.info with
  | some g =>
      unfold geocode
      rw [h]
      dsimp only
      rw [h]
      simp
  | none =>
      unfold geocode
      rw [h]
      dsimp only
      split
      · simp
      · split <;> simp

open Address in
/-- C6: when `geocode` extracts a coordinate pair with latitude outside
`[-90, 90]` or longitude outside `[-180, 180]` it raises and leaves the
stored coordinates untouched; the bounds invariant holds for freshly
constructed records and is preserved by every `geocode` call, so every
resolved record has in-range coordinates. -/
theorem C6_bounds_validation (a : Address) (net : GeoResponse) :
    (a.info = none →
      (net.coordinates.2 < -90 ∨ 90 < net.coordinates.2 ∨
       net.coordinates.1 < -180 ∨ 180 < net.coordinates.1) →
      (geocode net a).error.isSome = true ∧
      (geocode net a).state.latitude = a.latitude ∧
      (geocode net a).state.longitude = a.longitude) ∧
    (Address.boundsInv a → Address.boundsInv (geocode net a).state) ∧
    (∀ f1 f2 f3 f4 f5 : String, Address.boundsInv (Address.make f1 f2 f3 f4 f5)) := by
  refine ⟨fun hinfo hbad => ?_, fun hinv => ?_, fun f1 f2 f3 f4 f5 => ?_⟩
  · unfold geocode
    rw [hinfo]
    dsimp only
    by_cases hlat : net.coordinates.2 < -90 ∨ net.coordinates.2 > 90
    · rw [if_pos hlat]
      exact ⟨rfl, rfl, rfl⟩
    · rw [if_neg hlat]
      have hlon : net.coordinates.1 < -180 ∨ net.coordinates.1 > 180 := by
        rcases hbad with h | h | h | h
        · exact absurd (Or.inl h) hlat
        · exact absurd (Or.inr h) hlat
        · exact Or.inl h
        · exact Or.inr h
      rw [if_pos hlon]
      exact ⟨rfl, rfl, rfl⟩
  · unfold geocode
    cases h : a.info with
    | some g => exact hinv
    | none =>
        dsimp only
        by_cases hlat : net.coordinates.2 < -90 ∨ net.coordinates.2 > 90
        · rw [if_pos hlat]; exact hinv
        · rw [if_neg hlat]
          by_cases hlon : net.coordinates.1 < -180 ∨ net.coordinates.1 > 180
          · rw [if_pos hlon]; exact hinv
          · rw [if_neg hlon]
            push_neg at hlat hlon
            refine ⟨fun lat hmem => ?_, fun lon hmem => ?_⟩
            · obtain rfl : net.coordinates.2 = lat := by simpa using hmem
              exact ⟨hlat.1, hlat.2⟩
            · obtain rfl : net.coordinates.1 = lon := by simpa using hmem
              exact ⟨hlon.1, hlon.2⟩
  · exact ⟨fun lat h => by simp [Address.make] at h,
      fun lon h => by simp [Address.make] at h⟩

/-- Witness for C6 at a concrete fresh record and a response whose
latitude 100 is out of range: the call raises and stores no coordinate. -/
theorem C6_bounds_validation_witness :
    ((Address.make "s" "c" "st" "co" "z").info = none →
      ((⟨(0, 100)⟩ : GeoResponse).coordinates.2 < -90 ∨
       90 < (⟨(0, 100)⟩ : GeoResponse).coordinates.2 ∨
       (⟨(0, 100)⟩ : GeoResponse).coordinates.1 < -180 ∨
       180 < (⟨(0, 100)⟩ : GeoResponse).coordinates.1) →
      (Address.geocode ⟨(0, 100)⟩ (Address.make "s" "c" "st" "co" "z")).error.isSome = true ∧
      (Address.geocode ⟨(0, 100)⟩ (Address.make "s" "c" "st" "co" "z")).state.latitude
        = (Address.make "s" "c" "st" "co" "z").latitude ∧
      (Address.geocode ⟨(0, 100)⟩ (Address.make "s" "c" "st" "co" "z")).state.longitude
        = (Address.make "s" "c" "st" "co" "z").longitude) ∧
    (Address.boundsInv (Address.make "s" "c" "st" "co" "z") →
      Address.boundsInv
        (Address.geocode ⟨(0, 100)⟩ (Address.make "s" "c" "st" "co" "z")).state) ∧
    (∀ f1 f2 f3 f4 f5 : String, Address.boundsInv (Address.make f1 f2 f3 f4 f5)) :=
  C6_bounds_validation (Address.make "s" "c" "st" "co" "z") ⟨(0, 100)⟩

open Address in
/-- C10: when `geocode` raises the bounds error on a fresh record, the
metadata mapping has already been stored (nonempty) while the coordinates
still hold the NaN sentinel, so every later `geocode` call is a no-op
(no external call, no state change, no error) and the record never
acquires valid coordinates. -/
theorem C10_geocode_not_atomic (a : Address) (net : GeoResponse)
    (hinfo : a.info = none) (hlat : a.latitude = none)
    (hlon : a.longitude = none)
    (hraise : (geocode net a).error.isSome = true) :
    (geocode net a).state.info = some net ∧
    (geocode net a).state.latitude = none ∧
    (geocode net a).state.longitude = none ∧
    (∀ net2 : GeoResponse,
      geocode net2 (geocode net a).state = ⟨none, false, (geocode net a).state⟩) := by
  unfold geocode at *
  rw [hinfo] at hraise ⊢
  dsimp only at hraise ⊢
  by_cases hb1 : net.coordinates.2 < -90 ∨ net.coordinates.2 > 90
  · rw [if_pos hb1] at hraise ⊢
    exact ⟨rfl, hlat, hlon, fun net2 => rfl⟩
  · rw [if_neg hb1] at hraise ⊢
    by_cases hb2 : net.coordinates.1 < -180 ∨ net.coordinates.1 > 180
    · rw [if_pos hb2] at hraise ⊢
      exact ⟨rfl, hlat, hlon, fun net2 => rfl⟩
    · rw [if_neg hb2] at hraise
      simp at hraise

/-- Witness for C10: a fresh record and a response with latitude 100. -/
theorem C10_geocode_not_atomic_witness :
    (Address.geocode ⟨(0, 100)⟩ (Address.make "s" "c" "st" "co" "z")).state.info
      = some ⟨(0, 100)⟩ ∧
    (Address.geocode ⟨(0, 100)⟩ (Address.make "s" "c" "st" "co" "z")).state.latitude
      = none ∧
    (Address.geocode ⟨(0, 100)⟩ (Address.make "s" "c" "st" "co" "z")).state.longitude
      = none ∧
    (∀ net2 : GeoResponse,
      Address.geocode net2
          (Address.geocode ⟨(0, 100)⟩ (Address.make "s" "c" "st" "co" "z")).state =
        ⟨none, false,
          (Address.geocode ⟨(0, 100)⟩ (Address.make "s" "c" "st" "co" "z")).state⟩) :=
  C10_geocode_not_atomic (Address.make "s" "c" "st" "co" "z") ⟨(0, 100)⟩
    rfl rfl rfl (by decide)

end CVRP
